import Mathlib

/-!
Verification of the banner-img Cloudflare Worker (src/index.ts).

The worker's single `fetch` handler is embedded shallowly: every external
interaction (KV cache get/put, metadata-provider fetch, provider-body JSON
parse, image-origin fetch) is a field of a `World` record holding the outcome
that interaction would produce — `Except Unit α` models a promise that either
resolves (`.ok`) or rejects/throws (`.error`).  The handler is then a pure
function from the request's query parameters and a `World` to the outgoing
response together with an `Effects` record of the observable calls it made.
Header names are compared case-insensitively, as the JS `Headers` class does.
-/

/-- `urls` object of the Unsplash API response (the field the handler reads). -/
structure Urls where
  raw : String
  deriving Repr, DecidableEq

/-- `user.links` object of the Unsplash API response. -/
structure UserLinks where
  html : String
  deriving Repr, DecidableEq

/-- `user` object of the Unsplash API response. -/
structure User where
  name : String
  links : UserLinks
  deriving Repr, DecidableEq

/-- Top-level `links` object of the Unsplash API response. -/
structure PhotoLinks where
  html : String
  deriving Repr, DecidableEq

/-- The `UnsplashApiResponse` interface, restricted to the required fields the
handler actually reads (`urls.raw`, `user.name`, `user.links.html`,
`links.html`); all other fields pass through unread. -/
structure UnsplashApiResponse where
  urls : Urls
  user : User
  links : PhotoLinks
  deriving Repr, DecidableEq

/-- An upstream HTTP response as seen through the `fetch` API: the handler
reads `ok`, `status`, `statusText`, `headers` and whether `body` is present. -/
structure HttpResponse where
  ok : Bool
  status : Nat
  statusText : String
  headers : List (String × String)
  hasBody : Bool
  body : String
  deriving Repr, DecidableEq

/-- The response the handler returns to its caller. -/
structure OutResponse where
  status : Nat
  statusText : String
  headers : List (String × String)
  body : String
  deriving Repr, DecidableEq

/-- `new Response(text, \x7b status \x7d)`: statusText defaults to the empty
string and no headers are set explicitly. -/
def errorResponse (body : String) (status : Nat) : OutResponse :=
  { status := status, statusText := "", headers := [], body := body }

/-- A header name folded to lower case, for case-insensitive comparison. -/
def foldName (a : String) : List Char := a.data.map Char.toLower

/-- Case-insensitive header-name comparison, as in the JS `Headers` class. -/
def headerEq (a b : String) : Bool := foldName a == foldName b

/-- `Headers.get`: first entry whose name matches case-insensitively. -/
def hget (hs : List (String × String)) (k : String) : Option String :=
  (hs.find? (fun q => headerEq q.1 k)).map (fun q => q.2)

/-- `Headers.set`: replace every entry matching the name, add the new value. -/
def hset (hs : List (String × String)) (k v : String) : List (String × String) :=
  hs.filter (fun q => !headerEq q.1 k) ++ [(k, v)]

/-- One `env.CACHE.put(key, value, \x7b expirationTtl \x7d)` call.
`expirationTtl = none` models the JavaScript number NaN. -/
structure CachePut where
  key : String
  value : String
  expirationTtl : Option Int
  deriving Repr, DecidableEq

/-- Observable calls the handler made while serving one request. -/
structure Effects where
  providerCalls : Nat
  imageCalls : Nat
  imageUrl : Option String
  cachePuts : List CachePut
  deriving Repr, DecidableEq

def emptyEffects : Effects :=
  { providerCalls := 0, imageCalls := 0, imageUrl := none, cachePuts := [] }

/-- Outcomes of the external interactions a single request can perform.
`.error ()` models a rejected promise / thrown exception at that step. -/
structure World where
  cacheGet : Except Unit (Option UnsplashApiResponse)
  providerResp : Except Unit HttpResponse
  providerJson : Except Unit UnsplashApiResponse
  cachePutRes : Except Unit Unit
  cacheDuration : Option String
  imageResp : Except Unit HttpResponse
  deriving Repr

/-- JavaScript `parseInt(s, 10)`: skip leading whitespace, optional sign, then
the longest run of decimal digits; `none` (NaN) when no digit is found. -/
def jsParseInt (s : String) : Option Int :=
  let cs := s.data.dropWhile (fun c => c == ' ' || c == '\t' || c == '\n' || c == '\r')
  let signed : Int × List Char :=
    match cs with
    | '-' :: r => (-1, r)
    | '+' :: r => (1, r)
    | r => (1, r)
  let ds := signed.2.takeWhile (fun c => c.isDigit)
  if ds.isEmpty then none
  else some (signed.1 * (ds.foldl (fun a c => a * 10 + (c.toNat - 48)) 0 : Nat))

/-- `env.CACHE_DURATION ? parseInt(env.CACHE_DURATION, 10) : 900`: the 900
default applies exactly when the variable is absent or the empty string
(falsy); otherwise the `parseInt` result is used, `none` modelling NaN. -/
def computeTtl (cd : Option String) : Option Int :=
  match cd with
  | none => some 900
  | some s => if s = "" then some 900 else jsParseInt s

/-- The cache key: `unsplash:$\x7bkeywords\x7d:$\x7bcacheKeyParam\x7d`. -/
def mkCacheKey (keywords cacheKeyParam : String) : String :=
  "unsplash:" ++ keywords ++ ":" ++ cacheKeyParam

/-- `JSON.stringify(unsplashData)` restricted to the modelled fields. -/
def stringifyUnsplash (d : UnsplashApiResponse) : String :=
  "\x7b\"urls\":\x7b\"raw\":\"" ++ d.urls.raw
    ++ "\"\x7d,\"user\":\x7b\"name\":\"" ++ d.user.name
    ++ "\",\"links\":\x7b\"html\":\"" ++ d.user.links.html
    ++ "\"\x7d\x7d,\"links\":\x7b\"html\":\"" ++ d.links.html ++ "\"\x7d\x7d"

/-- JavaScript `x || dflt` on a nullable string: the default applies whenever
`x` is falsy, i.e. when it is null (`none`) or the empty string. -/
def jsOr (x : Option String) (dflt : String) : String :=
  match x with
  | none => dflt
  | some v => if v = "" then dflt else v

/-- The tail of the handler once `unsplashData` is in hand: build the image
URL with the fixed transform suffix, fetch it, and assemble the response with
the forced `Content-Type` and the three attribution headers. -/
def imageStep (unsplashData : UnsplashApiResponse) (w : World) (eff : Effects) :
    Except Unit OutResponse × Effects :=
  let imageUrl := unsplashData.urls.raw ++ "&fm=webp&q=80&w=1920&fit=max"
  let eff := { eff with imageCalls := eff.imageCalls + 1, imageUrl := some imageUrl }
  match w.imageResp with
  | .error e => (.error e, eff)
  | .ok imageResponse =>
    if !imageResponse.ok || !imageResponse.hasBody then
      (.ok (errorResponse "Error fetching image" imageResponse.status), eff)
    else
      let ct := jsOr (hget imageResponse.headers "Content-Type") "image/jpeg"
      let headers :=
        hset (hset (hset (hset imageResponse.headers "Content-Type" ct)
          "X-Attribution-Photographer" unsplashData.user.name)
          "X-Attribution-Photographer-Link" unsplashData.user.links.html)
          "X-Attribution-Unsplash-Link" unsplashData.links.html
      (.ok { status := imageResponse.status,
             statusText := imageResponse.statusText,
             headers := headers,
             body := imageResponse.body }, eff)

/-- The body of the `try` block of the handler: cache lookup, conditional
provider fetch + cache write, then `imageStep`. -/
def handlerTry (keywords cacheKeyParam : String) (w : World) :
    Except Unit OutResponse × Effects :=
  let cacheKey := mkCacheKey keywords cacheKeyParam
  match w.cacheGet with
  | .error e => (.error e, emptyEffects)
  | .ok (some unsplashData) => imageStep unsplashData w emptyEffects
  | .ok none =>
    let eff := { emptyEffects with providerCalls := 1 }
    match w.providerResp with
    | .error e => (.error e, eff)
    | .ok unsplashResponse =>
      if !unsplashResponse.ok then
        (.ok (errorResponse "Error fetching image from Unsplash" unsplashResponse.status),
         eff)
      else
        match w.providerJson with
        | .error e => (.error e, eff)
        | .ok unsplashData =>
          let cacheDuration := computeTtl w.cacheDuration
          let eff := { eff with
            cachePuts := eff.cachePuts ++
              [{ key := cacheKey, value := stringifyUnsplash unsplashData,
                 expirationTtl := cacheDuration }] }
          match w.cachePutRes with
          | .error e => (.error e, eff)
          | .ok _ => imageStep unsplashData w eff

/-- The exported `fetch` handler: the `try` body with its `catch` returning a
fixed 500 response. -/
def fetchHandler (keywords cacheKeyParam : String) (w : World) :
    OutResponse × Effects :=
  let r := handlerTry keywords cacheKeyParam w
  match r.1 with
  | .ok out => (out, r.2)
  | .error _ => (errorResponse "Internal Server Error" 500, r.2)

/-- The metadata record is in hand and control reaches the image fetch:
either the cache returned it, or the miss path ran to completion. -/
def metadataAvailable (w : World) (d : UnsplashApiResponse) : Prop :=
  w.cacheGet = .ok (some d) ∨
  (w.cacheGet = .ok none ∧
   ∃ r, w.providerResp = .ok r ∧ r.ok = true ∧
        w.providerJson = .ok d ∧ w.cachePutRes = .ok ())

/-! ### Header-table lemmas -/

theorem headerEq_iff (a b : String) : headerEq a b = true ↔ foldName a = foldName b := by
  simp [headerEq]

theorem headerEq_refl (a : String) : headerEq a a = true := by
  simp [headerEq]

theorem headerEq_symm_true (a b : String) (h : headerEq a b = true) :
    headerEq b a = true := by
  rw [headerEq_iff] at h ⊢
  exact h.symm

theorem headerEq_symm_false (a b : String) (h : headerEq a b = false) :
    headerEq b a = false := by
  cases hb : headerEq b a with
  | false => rfl
  | true =>
    rw [headerEq_symm_true b a hb] at h
    exact h

theorem headerEq_trans_of (q k n : String) (h1 : headerEq n k = true)
    (h2 : headerEq q k = false) : headerEq q n = false := by
  cases h : headerEq q n with
  | false => rfl
  | true =>
    rw [headerEq_iff] at h h1
    rw [(headerEq_iff q k).mpr (h.trans h1)] at h2
    exact h2

theorem headerEq_false_of (q k n : String) (h1 : headerEq q k = true)
    (h2 : headerEq n k = false) : headerEq q n = false := by
  cases h : headerEq q n with
  | false => rfl
  | true =>
    rw [headerEq_iff] at h h1
    rw [(headerEq_iff n k).mpr (h.symm.trans h1)] at h2
    exact h2

theorem hget_hset_match (hs : List (String × String)) (k n v : String)
    (h : headerEq n k = true) : hget (hset hs k v) n = some v := by
  induction hs with
  | nil =>
    simp [hget, hset, List.find?, headerEq_symm_true n k h]
  | cons q t ih =>
    cases hq : headerEq q.1 k with
    | true =>
      simpa [hset, List.filter_cons, hq] using ih
    | false =>
      have hq' : headerEq q.1 n = false := headerEq_trans_of q.1 k n h hq
      simpa [hset, hget, List.filter_cons, List.find?, hq, hq'] using ih

theorem hget_hset_other (hs : List (String × String)) (k n v : String)
    (h : headerEq n k = false) : hget (hset hs k v) n = hget hs n := by
  induction hs with
  | nil =>
    simp [hget, hset, List.find?, headerEq_symm_false n k h]
  | cons q t ih =>
    cases hq : headerEq q.1 k with
    | true =>
      have hq' : headerEq q.1 n = false := headerEq_false_of q.1 k n hq h
      simpa [hset, hget, List.filter_cons, List.find?, hq, hq'] using ih
    | false =>
      cases hn : headerEq q.1 n with
      | true => simp [hset, hget, List.filter_cons, List.find?, hq, hn]
      | false => simpa [hset, hget, List.filter_cons, List.find?, hq, hn] using ih

/-! ### Route lemmas -/

theorem imageStep_effects (d : UnsplashApiResponse) (w : World) (eff : Effects) :
    (imageStep d w eff).2.providerCalls = eff.providerCalls ∧
    (imageStep d w eff).2.imageCalls = eff.imageCalls + 1 ∧
    (imageStep d w eff).2.cachePuts = eff.cachePuts ∧
    (imageStep d w eff).2.imageUrl =
      some (d.urls.raw ++ "&fm=webp&q=80&w=1920&fit=max") := by
  unfold imageStep
  cases w.imageResp with
  | error e => simp
  | ok ir =>
    cases h : (!ir.ok || !ir.hasBody) with
    | true => simp [h]
    | false => simp [h]

theorem imageStep_ok (d : UnsplashApiResponse) (w : World) (eff : Effects)
    (ir : HttpResponse) (himg : w.imageResp = .ok ir)
    (hok : ir.ok = true) (hbody : ir.hasBody = true) :
    (imageStep d w eff).1 = .ok
      { status := ir.status, statusText := ir.statusText,
        headers := hset (hset (hset (hset ir.headers "Content-Type"
            (jsOr (hget ir.headers "Content-Type") "image/jpeg"))
          "X-Attribution-Photographer" d.user.name)
          "X-Attribution-Photographer-Link" d.user.links.html)
          "X-Attribution-Unsplash-Link" d.links.html,
        body := ir.body } := by
  unfold imageStep
  rw [himg]
  simp [hok, hbody]

theorem imageStep_fail (d : UnsplashApiResponse) (w : World) (eff : Effects)
    (ir : HttpResponse) (himg : w.imageResp = .ok ir)
    (hfail : ir.ok = false ∨ ir.hasBody = false) :
    (imageStep d w eff).1 = .ok (errorResponse "Error fetching image" ir.status) := by
  unfold imageStep
  rw [himg]
  rcases hfail with h | h <;> simp [h]

theorem handlerTry_hit (k p : String) (w : World) (d : UnsplashApiResponse)
    (h : w.cacheGet = .ok (some d)) :
    handlerTry k p w = imageStep d w emptyEffects := by
  unfold handlerTry
  rw [h]

theorem handlerTry_miss (k p : String) (w : World) (d : UnsplashApiResponse)
    (r : HttpResponse) (h1 : w.cacheGet = .ok none) (h2 : w.providerResp = .ok r)
    (h3 : r.ok = true) (h4 : w.providerJson = .ok d) (h5 : w.cachePutRes = .ok ()) :
    handlerTry k p w = imageStep d w
      { providerCalls := 1, imageCalls := 0, imageUrl := none,
        cachePuts := [{ key := mkCacheKey k p, value := stringifyUnsplash d,
                        expirationTtl := computeTtl w.cacheDuration }] } := by
  unfold handlerTry
  rw [h1, h2, h4, h5]
  simp [h3, emptyEffects]

theorem handlerTry_meta (k p : String) (w : World) (d : UnsplashApiResponse)
    (hmeta : metadataAvailable w d) :
    ∃ eff : Effects, handlerTry k p w = imageStep d w eff := by
  rcases hmeta with hhit | ⟨h1, r, h2, h3, h4, h5⟩
  · exact ⟨emptyEffects, handlerTry_hit k p w d hhit⟩
  · exact ⟨_, handlerTry_miss k p w d r h1 h2 h3 h4 h5⟩

theorem fetchHandler_effects (k p : String) (w : World) :
    (fetchHandler k p w).2 = (handlerTry k p w).2 := by
  unfold fetchHandler
  cases h : (handlerTry k p w).1 <;> simp [h]

theorem fetchHandler_resp (k p : String) (w : World) (out : OutResponse)
    (h : (handlerTry k p w).1 = .ok out) : (fetchHandler k p w).1 = out := by
  simp [fetchHandler, h]

/-! ### Concrete sample data for witnesses and counterexamples -/

def sampleMeta : UnsplashApiResponse :=
  { urls := { raw := "https://images.unsplash.com/photo-1?ixid=abc" },
    user := { name := "Jane Doe", links := { html := "https://unsplash.com/@janedoe" } },
    links := { html := "https://unsplash.com/photos/photo-1" } }

def sampleImageResp : HttpResponse :=
  { ok := true, status := 200, statusText := "OK",
    headers := [("content-type", "image/webp"), ("ETag", "xyz")],
    hasBody := true, body := "IMAGEBYTES" }

def sampleProviderResp : HttpResponse :=
  { ok := true, status := 200, statusText := "OK", headers := [],
    hasBody := true, body := "ignored" }

/-- A request that misses the cache and succeeds end to end. -/
def missWorld : World :=
  { cacheGet := .ok none, providerResp := .ok sampleProviderResp,
    providerJson := .ok sampleMeta, cachePutRes := .ok (),
    cacheDuration := none, imageResp := .ok sampleImageResp }

/-- A request served from cache; the provider-side interactions would all
fail, which demonstrates that they are never reached. -/
def hitWorld : World :=
  { cacheGet := .ok (some sampleMeta), providerResp := .error (),
    providerJson := .error (), cachePutRes := .error (),
    cacheDuration := none, imageResp := .ok sampleImageResp }

/-- Provider replies 503 on a cache miss. -/
def provider503 : HttpResponse :=
  { ok := false, status := 503, statusText := "Service Unavailable",
    headers := [], hasBody := true, body := "oops" }

def p503World : World :=
  { cacheGet := .ok none, providerResp := .ok provider503,
    providerJson := .error (), cachePutRes := .error (),
    cacheDuration := none, imageResp := .error () }

/-- Image origin replies 404 with no body. -/
def img404 : HttpResponse :=
  { ok := false, status := 404, statusText := "Not Found", headers := [],
    hasBody := false, body := "" }

def img404World : World :=
  { cacheGet := .ok (some sampleMeta), providerResp := .error (),
    providerJson := .error (), cachePutRes := .error (),
    cacheDuration := none, imageResp := .ok img404 }

/-- The very first step (the cache read) throws. -/
def crashWorld : World :=
  { cacheGet := .error (), providerResp := .error (),
    providerJson := .error (), cachePutRes := .error (),
    cacheDuration := none, imageResp := .error () }

/-- Cache miss with CACHE_DURATION set to a non-numeric string. -/
def c2World : World :=
  { cacheGet := .ok none, providerResp := .ok sampleProviderResp,
    providerJson := .ok sampleMeta, cachePutRes := .ok (),
    cacheDuration := some "fifteen", imageResp := .ok sampleImageResp }

/-! ### Claim theorems -/

/-- Claim C7: for every pair of query-parameter strings, the derived cache
key is exactly "unsplash:" ++ keywords ++ ":" ++ cacheKeyParam (hence a pure
deterministic function of the pair), and every cache write the handler issues
uses exactly that key. -/
theorem C7_cache_key_shape (k p : String) (w : World) :
    mkCacheKey k p = "unsplash:" ++ k ++ ":" ++ p ∧
    ((fetchHandler k p w).2.cachePuts.all
      (fun cput => cput.key == mkCacheKey k p)) = true := by
  refine ⟨rfl, ?_⟩
  rw [fetchHandler_effects]
  unfold handlerTry
  cases hcg : w.cacheGet with
  | error e => simp [emptyEffects]
  | ok ov =>
    cases ov with
    | some d =>
      rw [(imageStep_effects d w emptyEffects).2.2.1]
      simp [emptyEffects]
    | none =>
      cases hpr : w.providerResp with
      | error e => simp [emptyEffects]
      | ok r =>
        cases hro : r.ok with
        | false => simp [hro, emptyEffects]
        | true =>
          simp only [hro, Bool.not_true, Bool.false_eq_true, if_false]
          cases hpj : w.providerJson with
          | error e => simp [emptyEffects]
          | ok d =>
            cases hcp : w.cachePutRes with
            | error e => simp [emptyEffects]
            | ok u =>
              rw [(imageStep_effects d w _).2.2.1]
              simp [emptyEffects]

/-- Claim C10: on a cache hit the handler issues no cache write at all. -/
theorem C10_hit_no_put (k p : String) (w : World) (d : UnsplashApiResponse)
    (hhit : w.cacheGet = .ok (some d)) :
    (fetchHandler k p w).2.cachePuts = [] := by
  rw [fetchHandler_effects, handlerTry_hit k p w d hhit,
      (imageStep_effects d w emptyEffects).2.2.1]
  rfl

/-- Claim C10 witness at a concrete cache-hit request. -/
theorem C10_hit_no_put_witness :
    hitWorld.cacheGet = .ok (some sampleMeta) ∧
    (fetchHandler "mountains" "v1" hitWorld).2.cachePuts = [] :=
  ⟨rfl, C10_hit_no_put "mountains" "v1" hitWorld sampleMeta rfl⟩

/-- Claim C3: on a cache hit the metadata provider is never contacted, and
whenever the request reaches the image-fetch step (cache hit or completed
miss path) the image origin is contacted exactly once. -/
theorem C3_provider_and_image_calls (k p : String) (w : World)
    (d : UnsplashApiResponse) (hmeta : metadataAvailable w d) :
    (w.cacheGet = .ok (some d) → (fetchHandler k p w).2.providerCalls = 0) ∧
    (fetchHandler k p w).2.imageCalls = 1 := by
  constructor
  · intro hhit
    rw [fetchHandler_effects, handlerTry_hit k p w d hhit,
        (imageStep_effects d w emptyEffects).1]
    rfl
  · rcases hmeta with hhit | ⟨h1, r, h2, h3, h4, h5⟩
    · rw [fetchHandler_effects, handlerTry_hit k p w d hhit,
          (imageStep_effects d w emptyEffects).2.1]
      rfl
    · rw [fetchHandler_effects, handlerTry_miss k p w d r h1 h2 h3 h4 h5,
          (imageStep_effects d w _).2.1]

/-- Claim C3 witness at a concrete cache-hit request. -/
theorem C3_provider_and_image_calls_witness :
    hitWorld.cacheGet = .ok (some sampleMeta) ∧
    (fetchHandler "sea" "" hitWorld).2.providerCalls = 0 ∧
    (fetchHandler "sea" "" hitWorld).2.imageCalls = 1 :=
  ⟨rfl,
   (C3_provider_and_image_calls "sea" "" hitWorld sampleMeta (Or.inl rfl)).1 rfl,
   (C3_provider_and_image_calls "sea" "" hitWorld sampleMeta (Or.inl rfl)).2⟩

/-- Claim C9: whichever way the metadata record was obtained, the URL
requested from the image origin is urls.raw with the literal suffix
"&fm=webp&q=80&w=1920&fit=max" appended. -/
theorem C9_image_url (k p : String) (w : World) (d : UnsplashApiResponse)
    (hmeta : metadataAvailable w d) :
    (fetchHandler k p w).2.imageUrl =
      some (d.urls.raw ++ "&fm=webp&q=80&w=1920&fit=max") := by
  obtain ⟨eff, heq⟩ := handlerTry_meta k p w d hmeta
  rw [fetchHandler_effects, heq, (imageStep_effects d w eff).2.2.2]

/-- Claim C9 witness at a concrete cache-miss request. -/
theorem C9_image_url_witness :
    missWorld.cacheGet = .ok none ∧
    (fetchHandler "sky" "x" missWorld).2.imageUrl =
      some (sampleMeta.urls.raw ++ "&fm=webp&q=80&w=1920&fit=max") :=
  ⟨rfl,
   C9_image_url "sky" "x" missWorld sampleMeta
     (Or.inr ⟨rfl, sampleProviderResp, rfl, rfl, rfl, rfl⟩)⟩

/-- Claim C6: whenever the try-block aborts with a thrown error at any step,
the handler answers 500 with the fixed body "Internal Server Error" and no
headers, leaking no detail of the failure. -/
theorem C6_catch_500 (k p : String) (w : World)
    (h : (handlerTry k p w).1 = .error ()) :
    (fetchHandler k p w).1.status = 500 ∧
    (fetchHandler k p w).1.body = "Internal Server Error" ∧
    (fetchHandler k p w).1.headers = [] ∧
    (fetchHandler k p w).1 = errorResponse "Internal Server Error" 500 := by
  have hr : (fetchHandler k p w).1 = errorResponse "Internal Server Error" 500 := by
    simp [fetchHandler, h]
  exact ⟨by rw [hr]; rfl, by rw [hr]; rfl, by rw [hr]; rfl, hr⟩

/-- Claim C6 witness: the cache read itself throws. -/
theorem C6_catch_500_witness :
    (handlerTry "a" "b" crashWorld).1 = .error () ∧
    (fetchHandler "a" "b" crashWorld).1.status = 500 ∧
    (fetchHandler "a" "b" crashWorld).1.body = "Internal Server Error" :=
  ⟨rfl, (C6_catch_500 "a" "b" crashWorld rfl).1, (C6_catch_500 "a" "b" crashWorld rfl).2.1⟩

/-- Claim C4: on a cache miss, a non-success provider status is returned to
the caller verbatim with the fixed body "Error fetching image from Unsplash",
no attribution headers, no image-origin call and no cache write. -/
theorem C4_provider_failure (k p : String) (w : World) (r : HttpResponse)
    (h1 : w.cacheGet = .ok none) (h2 : w.providerResp = .ok r)
    (h3 : r.ok = false) :
    (fetchHandler k p w).1 =
      errorResponse "Error fetching image from Unsplash" r.status ∧
    hget (fetchHandler k p w).1.headers "X-Attribution-Photographer" = none ∧
    hget (fetchHandler k p w).1.headers "X-Attribution-Photographer-Link" = none ∧
    hget (fetchHandler k p w).1.headers "X-Attribution-Unsplash-Link" = none ∧
    (fetchHandler k p w).2.imageCalls = 0 ∧
    (fetchHandler k p w).2.cachePuts = [] := by
  have htry : handlerTry k p w =
      (.ok (errorResponse "Error fetching image from Unsplash" r.status),
       { emptyEffects with providerCalls := 1 }) := by
    unfold handlerTry
    rw [h1, h2]
    simp [h3]
  have hr : (fetchHandler k p w).1 =
      errorResponse "Error fetching image from Unsplash" r.status :=
    fetchHandler_resp k p w _ (by rw [htry])
  have he : (fetchHandler k p w).2 = { emptyEffects with providerCalls := 1 } := by
    rw [fetchHandler_effects, htry]
  exact ⟨hr, by rw [hr]; rfl, by rw [hr]; rfl, by rw [hr]; rfl,
         by rw [he]; rfl, by rw [he]; rfl⟩

/-- Claim C4 witness: provider answers 503 on a concrete request. -/
theorem C4_provider_failure_witness :
    p503World.providerResp = .ok provider503 ∧
    provider503.status = 503 ∧
    (fetchHandler "q" "" p503World).1 =
      errorResponse "Error fetching image from Unsplash" 503 ∧
    (fetchHandler "q" "" p503World).2.imageCalls = 0 :=
  ⟨rfl, rfl,
   (C4_provider_failure "q" "" p503World provider503 rfl rfl rfl).1,
   (C4_provider_failure "q" "" p503World provider503 rfl rfl rfl).2.2.2.2.1⟩

/-- Claim C5: when the image-origin fetch is unsuccessful or has no body, the
caller gets the image status with the fixed body "Error fetching image" and
no attribution headers. -/
theorem C5_image_failure (k p : String) (w : World) (d : UnsplashApiResponse)
    (ir : HttpResponse) (hmeta : metadataAvailable w d)
    (himg : w.imageResp = .ok ir)
    (hfail : ir.ok = false ∨ ir.hasBody = false) :
    (fetchHandler k p w).1 = errorResponse "Error fetching image" ir.status ∧
    hget (fetchHandler k p w).1.headers "X-Attribution-Photographer" = none ∧
    hget (fetchHandler k p w).1.headers "X-Attribution-Photographer-Link" = none ∧
    hget (fetchHandler k p w).1.headers "X-Attribution-Unsplash-Link" = none := by
  obtain ⟨eff, heq⟩ := handlerTry_meta k p w d hmeta
  have hr : (fetchHandler k p w).1 = errorResponse "Error fetching image" ir.status :=
    fetchHandler_resp k p w _ (by rw [heq]; exact imageStep_fail d w eff ir himg hfail)
  exact ⟨hr, by rw [hr]; rfl, by rw [hr]; rfl, by rw [hr]; rfl⟩

/-- Claim C5 witness: image origin answers 404 with no body on a cache-hit
request. -/
theorem C5_image_failure_witness :
    img404World.imageResp = .ok img404 ∧
    img404.status = 404 ∧
    (fetchHandler "q" "" img404World).1 = errorResponse "Error fetching image" 404 ∧
    hget (fetchHandler "q" "" img404World).1.headers "X-Attribution-Photographer" = none :=
  ⟨rfl, rfl,
   (C5_image_failure "q" "" img404World sampleMeta img404
     (Or.inl rfl) rfl (Or.inl rfl)).1,
   (C5_image_failure "q" "" img404World sampleMeta img404
     (Or.inl rfl) rfl (Or.inl rfl)).2.1⟩

/-- An image response whose Content-Type header is present but empty: the JS
`||` fallback still substitutes "image/jpeg" for it. -/
def emptyCtImage : HttpResponse :=
  { ok := true, status := 200, statusText := "OK",
    headers := [("Content-Type", "")], hasBody := true, body := "B" }

def emptyCtWorld : World :=
  { cacheGet := .ok (some sampleMeta), providerResp := .error (),
    providerJson := .error (), cachePutRes := .error (),
    cacheDuration := none, imageResp := .ok emptyCtImage }

/-- Claim C1 counterexample: when the image response carries the header
("Content-Type", ""), the header is present, so the claim demands the
response's own (empty) Content-Type; the code's `||` fallback instead
substitutes "image/jpeg" because the empty string is falsy. -/
theorem C1_content_type_counterexample :
    hget emptyCtImage.headers "Content-Type" = some "" ∧
    hget (fetchHandler "k" "p" emptyCtWorld).1.headers "Content-Type" =
      some "image/jpeg" ∧
    hget (fetchHandler "k" "p" emptyCtWorld).1.headers "Content-Type" ≠
      some "" := by
  refine ⟨by decide, by decide, by decide⟩

/-- Claim C1 as amended: on full success (metadata in hand, image fetch ok
with a body) the response copies status, status text and body from the image
fetch, its Content-Type is the image response's own Content-Type (with
"image/jpeg" substituted when that header is absent or empty, JS falsiness),
the three attribution headers hold user.name, user.links.html and links.html
verbatim, and every other header is copied from the image fetch. -/
theorem C1_full_success (k p : String) (w : World) (d : UnsplashApiResponse)
    (ir : HttpResponse) (hmeta : metadataAvailable w d)
    (himg : w.imageResp = .ok ir) (hok : ir.ok = true) (hbody : ir.hasBody = true) :
    (fetchHandler k p w).1.status = ir.status ∧
    (fetchHandler k p w).1.statusText = ir.statusText ∧
    (fetchHandler k p w).1.body = ir.body ∧
    hget (fetchHandler k p w).1.headers "Content-Type" =
      some (jsOr (hget ir.headers "Content-Type") "image/jpeg") ∧
    hget (fetchHandler k p w).1.headers "X-Attribution-Photographer" =
      some d.user.name ∧
    hget (fetchHandler k p w).1.headers "X-Attribution-Photographer-Link" =
      some d.user.links.html ∧
    hget (fetchHandler k p w).1.headers "X-Attribution-Unsplash-Link" =
      some d.links.html ∧
    (∀ n : String,
      headerEq n "Content-Type" = false →
      headerEq n "X-Attribution-Photographer" = false →
      headerEq n "X-Attribution-Photographer-Link" = false →
      headerEq n "X-Attribution-Unsplash-Link" = false →
      hget (fetchHandler k p w).1.headers n = hget ir.headers n) := by
  obtain ⟨eff, heq⟩ := handlerTry_meta k p w d hmeta
  have hr : (fetchHandler k p w).1 =
      { status := ir.status, statusText := ir.statusText,
        headers := hset (hset (hset (hset ir.headers "Content-Type"
            (jsOr (hget ir.headers "Content-Type") "image/jpeg"))
          "X-Attribution-Photographer" d.user.name)
          "X-Attribution-Photographer-Link" d.user.links.html)
          "X-Attribution-Unsplash-Link" d.links.html,
        body := ir.body } :=
    fetchHandler_resp k p w _ (by rw [heq]; exact imageStep_ok d w eff ir himg hok hbody)
  rw [hr]
  refine ⟨rfl, rfl, rfl, ?_, ?_, ?_, ?_, ?_⟩
  · rw [hget_hset_other _ _ _ _ (by decide), hget_hset_other _ _ _ _ (by decide),
        hget_hset_other _ _ _ _ (by decide), hget_hset_match _ _ _ _ (headerEq_refl _)]
  · rw [hget_hset_other _ _ _ _ (by decide), hget_hset_other _ _ _ _ (by decide),
        hget_hset_match _ _ _ _ (headerEq_refl _)]
  · rw [hget_hset_other _ _ _ _ (by decide), hget_hset_match _ _ _ _ (headerEq_refl _)]
  · rw [hget_hset_match _ _ _ _ (headerEq_refl _)]
  · intro n hn1 hn2 hn3 hn4
    rw [hget_hset_other _ _ _ _ hn4, hget_hset_other _ _ _ _ hn3,
        hget_hset_other _ _ _ _ hn2, hget_hset_other _ _ _ _ hn1]

/-- Claim C1 witness: a concrete cache-hit request that succeeds end to end;
the image response stores its content type under the lower-case name, which
the case-insensitive lookup still finds. -/
theorem C1_full_success_witness :
    hitWorld.imageResp = .ok sampleImageResp ∧
    (fetchHandler "k" "p" hitWorld).1.body = sampleImageResp.body ∧
    hget (fetchHandler "k" "p" hitWorld).1.headers "Content-Type" =
      some "image/webp" ∧
    hget (fetchHandler "k" "p" hitWorld).1.headers "X-Attribution-Photographer" =
      some sampleMeta.user.name :=
  ⟨rfl,
   (C1_full_success "k" "p" hitWorld sampleMeta sampleImageResp
     (Or.inl rfl) rfl rfl rfl).2.2.1,
   (C1_full_success "k" "p" hitWorld sampleMeta sampleImageResp
     (Or.inl rfl) rfl rfl rfl).2.2.2.1,
   (C1_full_success "k" "p" hitWorld sampleMeta sampleImageResp
     (Or.inl rfl) rfl rfl rfl).2.2.2.2.1⟩

/-- Claim C2 counterexample: with CACHE_DURATION present but unparseable
("fifteen"), the single cache write carries expirationTtl NaN (modelled as
none), not the 900-second default the claim requires. -/
theorem C2_ttl_counterexample :
    c2World.cacheDuration = some "fifteen" ∧
    jsParseInt "fifteen" = none ∧
    (fetchHandler "k" "p" c2World).2.cachePuts.map
      (fun cput => cput.expirationTtl) = [none] ∧
    (fetchHandler "k" "p" c2World).2.cachePuts.map
      (fun cput => cput.expirationTtl) ≠ [some 900] := by
  refine ⟨rfl, by decide, by decide, by decide⟩

/-- Claim C2 as amended: on a cache miss with a successful, parseable
provider response, exactly one cache write occurs, under the derived key,
with the JSON-serialized metadata as value; its TTL is 900 seconds when
CACHE_DURATION is absent or empty, and otherwise the parseInt result — NaN,
not 900, when the string is unparseable. -/
theorem C2_single_put (k p : String) (w : World) (d : UnsplashApiResponse)
    (r : HttpResponse) (h1 : w.cacheGet = .ok none)
    (h2 : w.providerResp = .ok r) (h3 : r.ok = true)
    (h4 : w.providerJson = .ok d) :
    (fetchHandler k p w).2.cachePuts =
      [{ key := mkCacheKey k p, value := stringifyUnsplash d,
         expirationTtl := computeTtl w.cacheDuration }] ∧
    computeTtl none = some 900 ∧
    computeTtl (some "") = some 900 ∧
    (∀ s : String, s ≠ "" → computeTtl (some s) = jsParseInt s) := by
  refine ⟨?_, rfl, rfl, fun s hs => by simp [computeTtl, hs]⟩
  rw [fetchHandler_effects]
  unfold handlerTry
  rw [h1, h2]
  simp only [h3, Bool.not_true, Bool.false_eq_true, if_false]
  rw [h4]
  cases hcp : w.cachePutRes with
  | error e => simp [emptyEffects]
  | ok u =>
    rw [(imageStep_effects d w _).2.2.1]
    simp [emptyEffects]

/-- Claim C2 (amended) witness at a concrete cache-miss request with
CACHE_DURATION unset, yielding the 900-second default. -/
theorem C2_single_put_witness :
    missWorld.cacheGet = .ok none ∧
    missWorld.cacheDuration = none ∧
    (fetchHandler "k" "p" missWorld).2.cachePuts =
      [{ key := mkCacheKey "k" "p", value := stringifyUnsplash sampleMeta,
         expirationTtl := some 900 }] :=
  ⟨rfl, rfl,
   (C2_single_put "k" "p" missWorld sampleMeta sampleProviderResp
     rfl rfl rfl rfl).1⟩

/-- Claim C8 counterexample: the two distinct pairs ("a:b", "c") and
("a", "b:c") collide on the cache key "unsplash:a:b:c". -/
theorem C8_injectivity_counterexample :
    mkCacheKey "a:b" "c" = mkCacheKey "a" "b:c" ∧
    mkCacheKey "a:b" "c" = "unsplash:a:b:c" ∧
    ¬(("a:b" : String) = "a" ∧ ("c" : String) = "b:c") := by
  refine ⟨by decide, by decide, by decide⟩

theorem colonFree_append_cancel (a1 b1 a2 b2 : List Char)
    (h1 : ':' ∉ a1) (h2 : ':' ∉ a2)
    (heq : a1 ++ ':' :: b1 = a2 ++ ':' :: b2) : a1 = a2 ∧ b1 = b2 := by
  induction a1 generalizing a2 with
  | nil =>
    cases a2 with
    | nil => simpa using heq
    | cons c t =>
      simp only [List.nil_append, List.cons_append, List.cons.injEq] at heq
      exact absurd (heq.1 ▸ List.mem_cons_self c t) (heq.1 ▸ h2)
  | cons c t ih =>
    cases a2 with
    | nil =>
      simp only [List.nil_append, List.cons_append, List.cons.injEq] at heq
      exact absurd (heq.1 ▸ List.mem_cons_self c t) (heq.1 ▸ h1)
    | cons c2 t2 =>
      simp only [List.cons_append, List.cons.injEq] at heq
      have ht1 : ':' ∉ t := fun hm => h1 (List.mem_cons_of_mem c hm)
      have ht2 : ':' ∉ t2 := fun hm => h2 (List.mem_cons_of_mem c2 hm)
      obtain ⟨he1, he2⟩ := ih t2 ht1 ht2 heq.2
      exact ⟨by rw [heq.1, he1], he2⟩

/-- Claim C8 as amended: the derivation is injective only on pairs whose
keywords component is free of the ':' delimiter; two distinct such pairs get
distinct cache keys (and the counterexample shows injectivity fails when the
keywords string may itself contain a colon). -/
theorem C8_injective_when_colonFree (k1 p1 k2 p2 : String)
    (h1 : ':' ∉ k1.data) (h2 : ':' ∉ k2.data)
    (heq : mkCacheKey k1 p1 = mkCacheKey k2 p2) : k1 = k2 ∧ p1 = p2 := by
  have hd := congrArg String.data heq
  simp only [mkCacheKey, String.data_append, List.append_assoc] at hd
  have hd2 := List.append_cancel_left hd
  simp only [List.singleton_append] at hd2
  obtain ⟨ha, hb⟩ := colonFree_append_cancel k1.data p1.data k2.data p2.data h1 h2 hd2
  exact ⟨String.ext ha, String.ext hb⟩

/-- Claim C8 (amended) witness: concrete colon-free pairs. -/
theorem C8_injective_when_colonFree_witness :
    ':' ∉ ("sea" : String).data ∧
    (("sea" : String) = "sea" ∧ ("v1" : String) = "v1") :=
  ⟨by decide,
   C8_injective_when_colonFree "sea" "v1" "sea" "v1" (by decide) (by decide) rfl⟩
